import Mathlib

/-!
Verification of the credential/token lifecycle of the sentrychris/debug-profiler
device-inventory agent.

The development shallowly embeds the Python sources:
  * `src/app/auth_handler.py`   — credential store wrappers, login, refresh,
    `get_access_token` (the "app" revision, which namespaces each token type
    under `CREDENTIAL_SERVICE_NAME/<token_type>`);
  * `src/app/profile_handler.py` — `send_profile`, JSON serialization of the
    device profile;
  * `src/main.py`               — the monolithic revision: its `get_access_token`,
    `send_profile` (keyed under the single service name `ProspectorService`),
    `new_profile` and the `__main__` command-line flow with `--silent`/`--send`.

Side effects (network, keyring backend, terminal) are modelled by an explicit
environment of scripted outcomes (`Env`) threaded through each function, and
every externally observable action is recorded in a trace of `Event`s.  Python's
exceptions are modelled with `Except`; `send_profile`'s unbounded recursion is
modelled with a fuel parameter where running out of fuel (the Python function
still recursing) is reported as `none`.
-/

namespace Prospector

/-! ## JSON documents and `json.dumps(·, sort_keys=False, indent=4)` -/

/-- JSON values, modelling the Python dictionaries handed to `json.dumps`.
Objects keep their entries as an ordered association list, mirroring the
insertion order of a Python `dict`. -/
inductive Json where
  | str (s : String)
  | num (n : Int)
  | obj (entries : List (String × Json))
  | arr (elems : List Json)
  | null

/-- Escape of a single character inside a JSON string literal, following
`json.dumps` (quote, backslash and control characters; other characters are
kept verbatim). -/
def jsonEscapeChar (c : Char) : String :=
  if c = '"' then "\\\""
  else if c = '\\' then "\\\\"
  else if c = '\n' then "\\n"
  else if c = '\t' then "\\t"
  else if c = '\r' then "\\r"
  else if c.toNat < 32 then "\\u00" ++ String.mk [Nat.digitChar (c.toNat / 16), Nat.digitChar (c.toNat % 16)]
  else String.mk [c]

/-- Escape of a whole string inside a JSON string literal. -/
def jsonEscape (s : String) : String :=
  String.join (s.toList.map jsonEscapeChar)

/-- A JSON string literal: `"…"` with its content escaped. -/
def quoteStr (s : String) : String :=
  "\"" ++ jsonEscape s ++ "\""

/-- Indentation produced by `json.dumps(…, indent=4)` at nesting level `lvl`. -/
def indentStr (lvl : Nat) : String :=
  String.mk (List.replicate (4 * lvl) ' ')

mutual

/-- `json.dumps(value, sort_keys=False, indent=4)` at nesting level `lvl`:
object entries are rendered in list order (no sorting, no deduplication),
separated by `",\n"`, keys and values separated by `": "`. -/
def dumpsVal : Json → Nat → String
  | Json.str s, _ => quoteStr s
  | Json.num n, _ => toString n
  | Json.null, _ => "null"
  | Json.obj [], _ => "\x7b\x7d"
  | Json.obj (e :: es), lvl =>
      "\x7b\n" ++ dumpsEntries (e :: es) (lvl + 1) ++ "\n" ++ indentStr lvl ++ "\x7d"
  | Json.arr [], _ => "[]"
  | Json.arr (x :: xs), lvl =>
      "[\n" ++ dumpsElems (x :: xs) (lvl + 1) ++ "\n" ++ indentStr lvl ++ "]"

/-- Rendering of the entries of a JSON object, in insertion order. -/
def dumpsEntries : List (String × Json) → Nat → String
  | [], _ => ""
  | [(k, v)], lvl => indentStr lvl ++ quoteStr k ++ ": " ++ dumpsVal v lvl
  | (k, v) :: e :: es, lvl =>
      indentStr lvl ++ quoteStr k ++ ": " ++ dumpsVal v lvl ++ ",\n" ++
        dumpsEntries (e :: es) lvl

/-- Rendering of the elements of a JSON array. -/
def dumpsElems : List Json → Nat → String
  | [], _ => ""
  | [x], lvl => indentStr lvl ++ dumpsVal x lvl
  | x :: y :: xs, lvl =>
      indentStr lvl ++ dumpsVal x lvl ++ ",\n" ++ dumpsElems (y :: xs) lvl

end

/-- `json.dumps(profile, sort_keys=False, indent=4)`, as used by `send_profile`
and `write_profile`. -/
def dumps (j : Json) : String :=
  dumpsVal j 0

/-- Python truthiness of a value that is either a string or `None`:
`None` and `""` are falsy (`if not access_token: …`). -/
def truthy : Option String → Bool
  | none => false
  | some s => !(s == "")

/-- Python truthiness of the profile dictionary (`if profile and …`). -/
def jsonTruthy : Json → Bool
  | Json.obj es => !es.isEmpty
  | Json.arr xs => !xs.isEmpty
  | Json.str s => !(s == "")
  | Json.num n => !(n == 0)
  | Json.null => false

/-! ## World model: scripted outcomes of the outside world -/

/-- Outcome of one `urllib.request.urlopen` POST of the profile document. -/
inductive HttpOutcome where
  | ok
  | httpError (code : Nat)
  | transportError (msg : String)
deriving DecidableEq

/-- Outcome of one login or refresh exchange (response parsed as
`{access_token, refresh_token}`). -/
inductive AuthOutcome where
  | ok (access_token refresh_token : String)
  | httpError (code : Nat)
  | transportError (msg : String)
deriving DecidableEq

/-- Python exceptions that escape the modelled functions. -/
inductive Exc where
  | httpError (code : Nat)
  | transportError (msg : String)
deriving DecidableEq

/-- Scripted behaviour of the outside world: successive outcomes of profile
POSTs, refresh exchanges, login exchanges, whether successive keyring
operations raise, successive credentials typed at interactive prompts, and
successive keys pressed at `msvcrt.getch()`.  Exhausted queues fall back to a
fixed default (POST succeeds, exchanges fail at transport level, keyring does
not raise, empty input). -/
structure Env where
  submitQ : List HttpOutcome
  refreshQ : List AuthOutcome
  loginQ : List AuthOutcome
  keyringQ : List Bool
  inputQ : List (String × String)
  keyQ : List String
deriving DecidableEq

/-- Consume the next profile-POST outcome. -/
def Env.nextSubmit : Env → HttpOutcome × Env
  | env =>
    match env.submitQ with
    | [] => (HttpOutcome.ok, env)
    | o :: rest => (o, { env with submitQ := rest })

/-- Consume the next refresh-exchange outcome. -/
def Env.nextRefresh : Env → AuthOutcome × Env
  | env =>
    match env.refreshQ with
    | [] => (AuthOutcome.transportError "no response", env)
    | o :: rest => (o, { env with refreshQ := rest })

/-- Consume the next login-exchange outcome. -/
def Env.nextLogin : Env → AuthOutcome × Env
  | env =>
    match env.loginQ with
    | [] => (AuthOutcome.transportError "no response", env)
    | o :: rest => (o, { env with loginQ := rest })

/-- Consume whether the next keyring operation raises. -/
def Env.nextKeyring : Env → Bool × Env
  | env =>
    match env.keyringQ with
    | [] => (false, env)
    | b :: rest => (b, { env with keyringQ := rest })

/-- Consume the next pair of credentials typed at the interactive prompt. -/
def Env.nextInput : Env → (String × String) × Env
  | env =>
    match env.inputQ with
    | [] => (("", ""), env)
    | p :: rest => (p, { env with inputQ := rest })

/-- Consume the next key pressed at `msvcrt.getch()`. -/
def Env.nextKey : Env → String × Env
  | env =>
    match env.keyQ with
    | [] => ("", env)
    | k :: rest => (k, { env with keyQ := rest })

/-- The OS credential store: an association list from `(service, username)`
pairs to secret values; a later `set` shadows earlier entries. -/
def Store := List ((String × String) × String)

/-- Lookup in the credential store (`keyring.get_password` semantics:
absent keys give `None`). -/
def storeGet : Store → String × String → Option String
  | [], _ => none
  | (k', v) :: rest, k => if k' = k then some v else storeGet rest k

/-- Write/overwrite in the credential store (`keyring.set_password`). -/
def storeSet (st : Store) (k : String × String) (v : String) : Store :=
  (k, v) :: st

/-- The world: the scripted environment plus the credential store contents. -/
structure World where
  env : Env
  store : Store

/-- Externally observable actions of the agent, recorded in order. -/
inductive Event where
  /-- An HTTP POST of the serialized profile carrying this bearer token and body. -/
  | submitReq (token : String) (body : String)
  /-- A network call to the token-refresh endpoint with this refresh token. -/
  | refreshReq (refresh_token : String)
  /-- A refresh exchange returned this token pair. -/
  | refreshOk (access_token refresh_token : String)
  /-- A network call to the login endpoint with these credentials. -/
  | loginReq (email password : String)
  /-- A login exchange returned this token pair. -/
  | loginOk (access_token refresh_token : String)
  /-- An interactive prompt for username and password (`input`/`getpass`). -/
  | prompt
  /-- `keyring.get_password(service, username)`. -/
  | kget (service user : String)
  /-- `keyring.set_password(service, username, value)`. -/
  | kset (service user value : String)
  /-- `msvcrt.getch()` at the end of an interactive run. -/
  | getch
  /-- The profile printed to the console after pressing `p`. -/
  | printProfile (body : String)
  /-- The profile written to the local `.prospector` file. -/
  | fileWrite (body : String)
  | logError (msg : String)
  | logSuccess (msg : String)
  | logInfo (msg : String)
deriving DecidableEq

/-! Event classifiers and counters. -/

/-- Is this event a profile-submission POST? -/
def isSubmitReq : Event → Bool
  | Event.submitReq _ _ => true
  | _ => false

/-- Is this event a refresh network call? -/
def isRefreshReq : Event → Bool
  | Event.refreshReq _ => true
  | _ => false

/-- Is this event a successful refresh exchange? -/
def isRefreshOk : Event → Bool
  | Event.refreshOk _ _ => true
  | _ => false

/-- Is this event a login network call? -/
def isLoginReq : Event → Bool
  | Event.loginReq _ _ => true
  | _ => false

/-- Is this event an interactive credential prompt? -/
def isPrompt : Event → Bool
  | Event.prompt => true
  | _ => false

/-- Is this event a keyring write? -/
def isKset : Event → Bool
  | Event.kset _ _ _ => true
  | _ => false

/-- Number of profile-submission POSTs in a trace. -/
def countSubmits (evs : List Event) : Nat :=
  (evs.filter isSubmitReq).length

/-- Number of refresh network calls in a trace. -/
def countRefreshReqs (evs : List Event) : Nat :=
  (evs.filter isRefreshReq).length

/-- Number of login network calls in a trace. -/
def countLoginReqs (evs : List Event) : Nat :=
  (evs.filter isLoginReq).length

/-- Number of interactive credential prompts in a trace. -/
def countPrompts (evs : List Event) : Nat :=
  (evs.filter isPrompt).length

/-- Number of keyring writes in a trace. -/
def countKsets (evs : List Event) : Nat :=
  (evs.filter isKset).length

/-! ## `src/app/auth_handler.py` -/

/-- `AUTH_LOGIN_API_URL` of `auth_handler.py`. -/
def AUTH_LOGIN_API_URL : String := "https://prospect-api.versyx.net/api/auth/login"

/-- `AUTH_REFRESH_API_URL` of `auth_handler.py`. -/
def AUTH_REFRESH_API_URL : String := "https://prospect-api.versyx.net/api/auth/refresh"

/-- `PROFILE_API_URL` of `profile_handler.py`. -/
def PROFILE_API_URL : String := "https://prospect-api.versyx.net/api/devices/profiles"

/-- `CREDENTIAL_SERVICE_NAME` of `auth_handler.py`. -/
def CREDENTIAL_SERVICE_NAME : String := "ProspectorDeviceProfilingService"

/-- The `(service, username)` pair under which `auth_handler.py` keys a token
type: service `f"{CREDENTIAL_SERVICE_NAME}/{token_type}"`, username
`token_type`. -/
def credKey (token_type : String) : String × String :=
  (CREDENTIAL_SERVICE_NAME ++ "/" ++ token_type, token_type)

/-- `keyring.get_password` (world model): raises when the scripted backend
fails, otherwise looks the key up in the store. -/
def keyring_get_password (w : World) (service user : String) :
    World × List Event × Except String (Option String) :=
  match w.env.nextKeyring with
  | (true, env') =>
      ({ w with env := env' }, [Event.kget service user], Except.error "keyring backend failure")
  | (false, env') =>
      ({ w with env := env' }, [Event.kget service user],
        Except.ok (storeGet w.store (service, user)))

/-- `keyring.set_password` (world model): raises when the scripted backend
fails (leaving the store unchanged), otherwise overwrites the key. -/
def keyring_set_password (w : World) (service user value : String) :
    World × List Event × Except String Unit :=
  match w.env.nextKeyring with
  | (true, env') =>
      ({ w with env := env' }, [Event.kset service user value], Except.error "keyring backend failure")
  | (false, env') =>
      ({ env := env', store := storeSet w.store (service, user) value },
        [Event.kset service user value], Except.ok ())

/-- `auth_handler.get_token_from_credential_manager`: reads the token from the
keyring, catching any backend exception (which is logged and turned into
`None`). -/
def get_token_from_credential_manager (w : World) (token_type : String) :
    World × List Event × Option String :=
  match keyring_get_password w (CREDENTIAL_SERVICE_NAME ++ "/" ++ token_type) token_type with
  | (w', evs, Except.ok v) => (w', evs, v)
  | (w', evs, Except.error e) =>
      (w', evs ++ [Event.logError ("Failed to get " ++ token_type ++ " from credential manager: " ++ e)],
        none)

/-- `auth_handler.set_token_in_credential_manager`: writes the token to the
keyring, catching any backend exception; success and failure are only
logged, never raised. -/
def set_token_in_credential_manager (w : World) (token_type token : String) :
    World × List Event :=
  match keyring_set_password w (CREDENTIAL_SERVICE_NAME ++ "/" ++ token_type) token_type token with
  | (w', evs, Except.ok _) =>
      (w', evs ++ [Event.logSuccess (token_type ++ " saved to credential manager.")])
  | (w', evs, Except.error e) =>
      (w', evs ++ [Event.logError ("Failed to save " ++ token_type ++ " to credential manager: " ++ e)])

/-- `auth_handler.authenticate_user` (identical in `main.py`): POSTs
`{email, password}` to the login endpoint; HTTP errors and transport errors
are logged and re-raised. -/
def authenticate_user (w : World) (username password : String) :
    World × List Event × Except Exc (String × String) :=
  match w.env.nextLogin with
  | (AuthOutcome.ok a r, env') =>
      ({ w with env := env' },
        [Event.loginReq username password, Event.loginOk a r,
          Event.logSuccess ("Successfully authenticated with prospector service at " ++ AUTH_LOGIN_API_URL)],
        Except.ok (a, r))
  | (AuthOutcome.httpError c, env') =>
      ({ w with env := env' },
        [Event.loginReq username password,
          Event.logError ("Failed to get access token: HTTP " ++ toString c)],
        Except.error (Exc.httpError c))
  | (AuthOutcome.transportError m, env') =>
      ({ w with env := env' },
        [Event.loginReq username password,
          Event.logError ("Unexpected error during authentication: " ++ m)],
        Except.error (Exc.transportError m))

/-- `auth_handler.refresh_access_token` (identical in `main.py`): POSTs
`{refresh_token}` to the refresh endpoint; HTTP errors and transport errors
are logged and re-raised. -/
def refresh_access_token (w : World) (refresh_token : String) :
    World × List Event × Except Exc (String × String) :=
  match w.env.nextRefresh with
  | (AuthOutcome.ok a r, env') =>
      ({ w with env := env' },
        [Event.refreshReq refresh_token, Event.refreshOk a r,
          Event.logSuccess ("Successfully refreshed access token with prospector service at " ++ AUTH_REFRESH_API_URL)],
        Except.ok (a, r))
  | (AuthOutcome.httpError c, env') =>
      ({ w with env := env' },
        [Event.refreshReq refresh_token,
          Event.logError ("Failed to refresh access token: HTTP " ++ toString c)],
        Except.error (Exc.httpError c))
  | (AuthOutcome.transportError m, env') =>
      ({ w with env := env' },
        [Event.refreshReq refresh_token,
          Event.logError ("Unexpected error during token refresh: " ++ m)],
        Except.error (Exc.transportError m))

/-- Lines 143–149 of `auth_handler.py`: prompt for username and password,
call `authenticate_user`, persist both returned tokens, and produce the new
access token.  Reached whenever the cached access token is falsy. -/
def get_access_token_login (w : World) : World × List Event × Except Exc String :=
  match w.env.nextInput with
  | ((username, password), env') =>
    match authenticate_user { w with env := env' } username password with
    | (w1, evs1, Except.ok (a, r)) =>
        match set_token_in_credential_manager w1 "AccessToken" a with
        | (w2, evs2) =>
          match set_token_in_credential_manager w2 "RefreshToken" r with
          | (w3, evs3) =>
              (w3, Event.prompt :: (evs1 ++ evs2 ++ evs3), Except.ok a)
    | (w1, evs1, Except.error e) => (w1, Event.prompt :: evs1, Except.error e)

/-- `auth_handler.get_access_token`: return the cached access token if it is
truthy (Python `if not access_token`), otherwise prompt, log in, persist both
tokens and return the fresh access token. -/
def get_access_token (w : World) : World × List Event × Except Exc String :=
  match get_token_from_credential_manager w "AccessToken" with
  | (w1, evs1, access_token) =>
    match access_token with
    | some t =>
        if t == "" then
          match get_access_token_login w1 with
          | (w2, evs2, r) => (w2, evs1 ++ evs2, r)
        else (w1, evs1, Except.ok t)
    | none =>
        match get_access_token_login w1 with
        | (w2, evs2, r) => (w2, evs1 ++ evs2, r)

/-! ## `src/app/profile_handler.py` -/

/-- `profile_handler.send_profile`: serialize the profile, POST it with the
bearer token; on 401 fetch the refresh token, refresh, persist both new
tokens and *recursively* call itself with the new access token (the Python
code has no recursion bound; `fuel` bounds the model, and exhausting it —
the Python function would still be recursing — is reported as `none`).
A falsy refresh token re-raises the 401; other HTTP errors and transport
errors are logged and re-raised. -/
def send_profile : Nat → World → String → Json → World × List Event × Option (Except Exc Unit)
  | 0, w, _, _ => (w, [], none)
  | fuel + 1, w, access_token, profile =>
    let body := dumps profile
    match w.env.nextSubmit with
    | (HttpOutcome.ok, env') =>
        ({ w with env := env' },
          [Event.submitReq access_token body,
            Event.logSuccess ("Submitted device profile to prospector service at " ++ PROFILE_API_URL)],
          some (Except.ok ()))
    | (HttpOutcome.httpError code, env') =>
        if code == 401 then
          match get_token_from_credential_manager { w with env := env' } "RefreshToken" with
          | (w2, evs2, refresh_token) =>
            if truthy refresh_token then
              match refresh_access_token w2 (refresh_token.getD "") with
              | (w3, evs3, Except.ok (a, r)) =>
                  match set_token_in_credential_manager w3 "AccessToken" a with
                  | (w4, evs4) =>
                    match set_token_in_credential_manager w4 "RefreshToken" r with
                    | (w5, evs5) =>
                      match send_profile fuel w5 a profile with
                      | (w6, evs6, res) =>
                          (w6, Event.submitReq access_token body ::
                                Event.logInfo "Access token expired. Refreshing token..." ::
                                (evs2 ++ evs3 ++ evs4 ++ evs5 ++ evs6), res)
              | (w3, evs3, Except.error e) =>
                  (w3, Event.submitReq access_token body ::
                        Event.logInfo "Access token expired. Refreshing token..." ::
                        (evs2 ++ evs3), some (Except.error e))
            else
              (w2, Event.submitReq access_token body ::
                    Event.logInfo "Access token expired. Refreshing token..." ::
                    (evs2 ++ [Event.logError "Refresh token not found. Please authenticate again."]),
                some (Except.error (Exc.httpError code)))
        else
          ({ w with env := env' },
            [Event.submitReq access_token body,
              Event.logError ("Failed to send device profile to profile service: HTTP " ++ toString code)],
            some (Except.error (Exc.httpError code)))
    | (HttpOutcome.transportError m, env') =>
        ({ w with env := env' },
          [Event.submitReq access_token body,
            Event.logError ("Unexpected error during profile submission: " ++ m)],
          some (Except.error (Exc.transportError m)))

/-! ## `src/main.py` (monolithic revision)

`main.py` duplicates the token logic of `app/auth_handler.py` and
`app/profile_handler.py` with one difference: tokens are keyed under the single
service name `SERVICE_NAME = "ProspectorService"` with the token type as the
keyring username.  `authenticate_user` and `refresh_access_token` are textually
identical in both files and are shared above.  `main.py` additionally holds the
`new_profile` driver and the `__main__` command-line flow with the `--silent`
and `--send` flags. -/

/-- `SERVICE_NAME` of `main.py`. -/
def SERVICE_NAME : String := "ProspectorService"

/-- The `(service, username)` pair under which `main.py` keys a token type. -/
def mainCredKey (token_type : String) : String × String :=
  (SERVICE_NAME, token_type)

/-- `main.get_token_from_credential_manager` (keyed under `SERVICE_NAME`). -/
def main_get_token_from_credential_manager (w : World) (token_type : String) :
    World × List Event × Option String :=
  match keyring_get_password w SERVICE_NAME token_type with
  | (w', evs, Except.ok v) => (w', evs, v)
  | (w', evs, Except.error e) =>
      (w', evs ++ [Event.logError ("Failed to get " ++ token_type ++ " from credential manager: " ++ e)],
        none)

/-- `main.set_token_in_credential_manager` (keyed under `SERVICE_NAME`). -/
def main_set_token_in_credential_manager (w : World) (token_type token : String) :
    World × List Event :=
  match keyring_set_password w SERVICE_NAME token_type token with
  | (w', evs, Except.ok _) =>
      (w', evs ++ [Event.logSuccess (token_type ++ " saved to credential manager.")])
  | (w', evs, Except.error e) =>
      (w', evs ++ [Event.logError ("Failed to save " ++ token_type ++ " to credential manager: " ++ e)])

/-- Lines 690–696 of `main.py`: prompt for username and password, log in,
persist both tokens, produce the fresh access token. -/
def main_get_access_token_login (w : World) : World × List Event × Except Exc String :=
  match w.env.nextInput with
  | ((username, password), env') =>
    match authenticate_user { w with env := env' } username password with
    | (w1, evs1, Except.ok (a, r)) =>
        match main_set_token_in_credential_manager w1 "AccessToken" a with
        | (w2, evs2) =>
          match main_set_token_in_credential_manager w2 "RefreshToken" r with
          | (w3, evs3) =>
              (w3, Event.prompt :: (evs1 ++ evs2 ++ evs3), Except.ok a)
    | (w1, evs1, Except.error e) => (w1, Event.prompt :: evs1, Except.error e)

/-- `main.get_access_token`: identical to the app revision apart from the
keying scheme.  Note that it takes no non-interactive flag — when the cached
token is falsy it always prompts. -/
def main_get_access_token (w : World) : World × List Event × Except Exc String :=
  match main_get_token_from_credential_manager w "AccessToken" with
  | (w1, evs1, access_token) =>
    match access_token with
    | some t =>
        if t == "" then
          match main_get_access_token_login w1 with
          | (w2, evs2, r) => (w2, evs1 ++ evs2, r)
        else (w1, evs1, Except.ok t)
    | none =>
        match main_get_access_token_login w1 with
        | (w2, evs2, r) => (w2, evs1 ++ evs2, r)

/-- `main.send_profile`: identical to the app revision apart from the keying
scheme (again unboundedly recursive on 401; `fuel` bounds the model). -/
def main_send_profile : Nat → World → String → Json → World × List Event × Option (Except Exc Unit)
  | 0, w, _, _ => (w, [], none)
  | fuel + 1, w, access_token, profile =>
    let body := dumps profile
    match w.env.nextSubmit with
    | (HttpOutcome.ok, env') =>
        ({ w with env := env' },
          [Event.submitReq access_token body,
            Event.logSuccess ("Submitted device profile to prospector service at " ++ PROFILE_API_URL)],
          some (Except.ok ()))
    | (HttpOutcome.httpError code, env') =>
        if code == 401 then
          match main_get_token_from_credential_manager { w with env := env' } "RefreshToken" with
          | (w2, evs2, refresh_token) =>
            if truthy refresh_token then
              match refresh_access_token w2 (refresh_token.getD "") with
              | (w3, evs3, Except.ok (a, r)) =>
                  match main_set_token_in_credential_manager w3 "AccessToken" a with
                  | (w4, evs4) =>
                    match main_set_token_in_credential_manager w4 "RefreshToken" r with
                    | (w5, evs5) =>
                      match main_send_profile fuel w5 a profile with
                      | (w6, evs6, res) =>
                          (w6, Event.submitReq access_token body ::
                                Event.logInfo "Access token expired. Refreshing token..." ::
                                (evs2 ++ evs3 ++ evs4 ++ evs5 ++ evs6), res)
              | (w3, evs3, Except.error e) =>
                  (w3, Event.submitReq access_token body ::
                        Event.logInfo "Access token expired. Refreshing token..." ::
                        (evs2 ++ evs3), some (Except.error e))
            else
              (w2, Event.submitReq access_token body ::
                    Event.logInfo "Access token expired. Refreshing token..." ::
                    (evs2 ++ [Event.logError "Refresh token not found. Please authenticate again."]),
                some (Except.error (Exc.httpError code)))
        else
          ({ w with env := env' },
            [Event.submitReq access_token body,
              Event.logError ("Failed to send device profile to profile service: HTTP " ++ toString code)],
            some (Except.error (Exc.httpError code)))
    | (HttpOutcome.transportError m, env') =>
        ({ w with env := env' },
          [Event.submitReq access_token body,
            Event.logError ("Unexpected error during profile submission: " ++ m)],
          some (Except.error (Exc.transportError m)))

/-- `main.new_profile`: collect the profile (the profile document itself is
the out-of-scope collaborator's output and is passed in), write it locally,
and, when `--send` was given, obtain an access token and submit.  The whole
body sits in a `try`; any escaping exception is logged and an empty dict is
returned.  A `none` from the fuel-bounded submission means the Python code is
still recursing, so the model propagates the profile unchanged there. -/
def new_profile (fuel : Nat) (w : World) (send_to_service : Bool) (profile : Json) :
    World × List Event × Json :=
  let evs0 := [Event.logInfo "Collecting device profile...", Event.fileWrite (dumps profile)]
  if send_to_service then
    match main_get_access_token w with
    | (w1, evs1, Except.ok access_token) =>
      match main_send_profile fuel w1 access_token profile with
      | (w2, evs2, some (Except.ok _)) => (w2, evs0 ++ evs1 ++ evs2, profile)
      | (w2, evs2, some (Except.error _)) =>
          (w2, evs0 ++ evs1 ++ evs2 ++ [Event.logError "Failed to collect device profile."], Json.obj [])
      | (w2, evs2, none) => (w2, evs0 ++ evs1 ++ evs2, profile)
    | (w1, evs1, Except.error _) =>
        (w1, evs0 ++ evs1 ++ [Event.logError "Failed to collect device profile."], Json.obj [])
  else (w, evs0, profile)

/-- The `__main__` block of `main.py`: run `new_profile(args.send)`; then,
only when the returned profile is truthy **and** `--silent` was not given,
wait for a keypress and optionally print the profile.  `--silent` plays no
other role — in particular it is not consulted by `main_get_access_token`. -/
def main_run (fuel : Nat) (w : World) (silent send : Bool) (profile : Json) :
    World × List Event :=
  match new_profile fuel w send profile with
  | (w1, evs1, prof) =>
    if jsonTruthy prof && !silent then
      match w1.env.nextKey with
      | (key, env') =>
        let evs2 := [Event.logInfo "Press p to print device profile or any other key to exit...",
          Event.getch]
        let evs3 := if key == "p" then [Event.printProfile (dumps prof)] else []
        ({ w1 with env := env' }, evs1 ++ evs2 ++ evs3 ++ [Event.logInfo "Exiting..."])
    else
      (w1, evs1 ++ [Event.logInfo "Exiting..."])

/-! ## Trace checkers -/

/-- The "current access token" after an event: a successful refresh exchange
replaces it, every other event leaves it unchanged. -/
def bearerStep (cur : String) (e : Event) : String :=
  match e with
  | Event.refreshOk a _ => a
  | _ => cur

/-- Whether an event respects the current access token: a submission POST must
carry exactly the current token; other events always pass. -/
def bearerCheck (cur : String) (e : Event) : Bool :=
  match e with
  | Event.submitReq tok _ => tok == cur
  | _ => true

/-- Every submission POST in the trace carries the current access token, where
the current token starts as `cur` and is replaced by each successful refresh. -/
def bearerOk : List Event → String → Bool
  | [], _ => true
  | e :: rest, cur => bearerCheck cur e && bearerOk rest (bearerStep cur e)

/-- Whether an event's request body (if it is a submission POST) equals `body`. -/
def bodyCheck (body : String) (e : Event) : Bool :=
  match e with
  | Event.submitReq _ b => b == body
  | _ => true

/-- Every submission POST in the trace carries exactly the byte string `body`. -/
def bodiesOk (evs : List Event) (body : String) : Bool :=
  evs.all (bodyCheck body)

/-- `bearerOk` splits over an append: the right part is checked against the
token current after folding the left part. -/
theorem bearerOk_append (l₁ l₂ : List Event) (cur : String) :
    bearerOk (l₁ ++ l₂) cur = (bearerOk l₁ cur && bearerOk l₂ (l₁.foldl bearerStep cur)) := by
  induction l₁ generalizing cur with
  | nil => simp [bearerOk]
  | cons e t ih => simp [bearerOk, ih, Bool.and_assoc]

/-! ## Exact event traces of the credential-store and auth-client helpers -/

/-- The trace of `get_token_from_credential_manager` is a single keyring read,
followed by an error log exactly when the backend raised. -/
theorem get_token_events (w : World) (tt : String) :
    (get_token_from_credential_manager w tt).2.1
        = [Event.kget (CREDENTIAL_SERVICE_NAME ++ "/" ++ tt) tt]
    ∨ (∃ m, (get_token_from_credential_manager w tt).2.1
        = [Event.kget (CREDENTIAL_SERVICE_NAME ++ "/" ++ tt) tt, Event.logError m]) := by
  rcases w with ⟨⟨sq, rq, lq, kq, iq, keyq⟩, st⟩
  cases kq with
  | nil => left; rfl
  | cons b kq' =>
    cases b
    · left; rfl
    · right; exact ⟨_, rfl⟩

/-- The trace of `set_token_in_credential_manager` is a single keyring write of
the given token under its type tag, followed by one log line. -/
theorem set_token_events (w : World) (tt v : String) :
    (∃ m, (set_token_in_credential_manager w tt v).2
        = [Event.kset (CREDENTIAL_SERVICE_NAME ++ "/" ++ tt) tt v, Event.logSuccess m])
    ∨ (∃ m, (set_token_in_credential_manager w tt v).2
        = [Event.kset (CREDENTIAL_SERVICE_NAME ++ "/" ++ tt) tt v, Event.logError m]) := by
  rcases w with ⟨⟨sq, rq, lq, kq, iq, keyq⟩, st⟩
  cases kq with
  | nil => left; exact ⟨_, rfl⟩
  | cons b kq' =>
    cases b
    · left; exact ⟨_, rfl⟩
    · right; exact ⟨_, rfl⟩

/-- The trace of `refresh_access_token` is one refresh network call, followed —
exactly when the exchange succeeded — by the returned token pair and a success
log, and otherwise by an error log. -/
theorem refresh_events (w : World) (rt : String) :
    (∃ a r m, (refresh_access_token w rt).2.2 = Except.ok (a, r)
      ∧ (refresh_access_token w rt).2.1
          = [Event.refreshReq rt, Event.refreshOk a r, Event.logSuccess m])
    ∨ (∃ e m, (refresh_access_token w rt).2.2 = Except.error e
      ∧ (refresh_access_token w rt).2.1 = [Event.refreshReq rt, Event.logError m]) := by
  rcases w with ⟨⟨sq, rq, lq, kq, iq, keyq⟩, st⟩
  cases rq with
  | nil => right; exact ⟨_, _, rfl, rfl⟩
  | cons o rq' =>
    cases o with
    | ok a r => left; exact ⟨a, r, _, rfl, rfl⟩
    | httpError c => right; exact ⟨_, _, rfl, rfl⟩
    | transportError m => right; exact ⟨_, _, rfl, rfl⟩

/-- The keyring write is always the first event of
`set_token_in_credential_manager`, whether or not the backend raises. -/
theorem kset_mem_set_token (w : World) (tt v : String) :
    Event.kset (CREDENTIAL_SERVICE_NAME ++ "/" ++ tt) tt v
      ∈ (set_token_in_credential_manager w tt v).2 := by
  rcases set_token_events w tt v with ⟨m, h⟩ | ⟨m, h⟩ <;> rw [h] <;> simp

/-- With at least one unit of fuel, the trace of `send_profile` starts with the
POST of the serialized profile under the given bearer token. -/
theorem send_profile_events_cons (fuel : Nat) (w : World) (a : String) (p : Json) :
    ∃ rest, (send_profile (fuel + 1) w a p).2.1 = Event.submitReq a (dumps p) :: rest := by
  rcases w with ⟨⟨sq, rq, lq, kq, iq, keyq⟩, st⟩
  cases sq with
  | nil => exact ⟨_, rfl⟩
  | cons o sq' =>
    cases o with
    | ok => exact ⟨_, rfl⟩
    | transportError m => exact ⟨_, rfl⟩
    | httpError code =>
      simp only [send_profile, Env.nextSubmit]
      by_cases hc : (code == 401) = true
      · rw [if_pos hc]
        rcases hg : get_token_from_credential_manager
            { env := { submitQ := sq', refreshQ := rq, loginQ := lq, keyringQ := kq,
                       inputQ := iq, keyQ := keyq }, store := st } "RefreshToken" with
          ⟨w2, evs2, rt⟩
        by_cases ht : truthy rt = true
        · rw [if_pos ht]
          rcases hr : refresh_access_token w2 (rt.getD "") with ⟨w3, evs3, res3⟩
          cases res3 with
          | ok pr =>
            rcases pr with ⟨a', r'⟩
            rcases hs1 : set_token_in_credential_manager w3 "AccessToken" a' with ⟨w4, evs4⟩
            rcases hs2 : set_token_in_credential_manager w4 "RefreshToken" r' with ⟨w5, evs5⟩
            rcases h6 : send_profile fuel w5 a' p with ⟨w6, evs6, res6⟩
            exact ⟨_, rfl⟩
          | error e => exact ⟨_, rfl⟩
        · rw [if_neg ht]
          exact ⟨_, rfl⟩
      · rw [if_neg hc]
        exact ⟨_, rfl⟩

/-! ## Claims -/

/-- **C8.** Once a refresh succeeds during a submission, the prior access token
is never used again for any request of that submission: in any run of
`send_profile`, every submission POST carries the current access token, where
the current token starts as the argument token and is replaced by the token
pair of each successful refresh — even when the retried submission fails
again. -/
theorem retry_uses_latest_refreshed_token :
    ∀ (fuel : Nat) (w : World) (a : String) (p : Json),
      bearerOk (send_profile fuel w a p).2.1 a = true := by
  intro fuel
  induction fuel with
  | zero => intro w a p; rfl
  | succ n ih =>
    intro w a p
    rcases w with ⟨⟨sq, rq, lq, kq, iq, keyq⟩, st⟩
    cases sq with
    | nil => simp [send_profile, Env.nextSubmit, bearerOk, bearerCheck, bearerStep]
    | cons o sq' =>
      cases o with
      | ok => simp [send_profile, Env.nextSubmit, bearerOk, bearerCheck, bearerStep]
      | transportError m =>
          simp [send_profile, Env.nextSubmit, bearerOk, bearerCheck, bearerStep]
      | httpError code =>
        simp only [send_profile, Env.nextSubmit]
        by_cases hc : (code == 401) = true
        · rw [if_pos hc]
          rcases hg : get_token_from_credential_manager
              { env := { submitQ := sq', refreshQ := rq, loginQ := lq, keyringQ := kq,
                         inputQ := iq, keyQ := keyq }, store := st } "RefreshToken" with
            ⟨w2, evs2, rt⟩
          have h2 := get_token_events
              { env := { submitQ := sq', refreshQ := rq, loginQ := lq, keyringQ := kq,
                         inputQ := iq, keyQ := keyq }, store := st } "RefreshToken"
          rw [hg] at h2
          simp only [hg]
          by_cases ht : truthy rt = true
          · rw [if_pos ht]
            rcases hr : refresh_access_token w2 (rt.getD "") with ⟨w3, evs3, res3⟩
            have h3 := refresh_events w2 (rt.getD "")
            rw [hr] at h3
            cases res3 with
            | ok pr =>
              rcases pr with ⟨a', r'⟩
              simp only [hr]
              rcases h3 with ⟨a2, r2, m3, hres, hevs3⟩ | ⟨e, m3, hres, hevs3⟩
              · simp only at hres hevs3
                rcases hs1 : set_token_in_credential_manager w3 "AccessToken" a' with ⟨w4, evs4⟩
                have h4 := set_token_events w3 "AccessToken" a'
                rw [hs1] at h4
                rcases hs2 : set_token_in_credential_manager w4 "RefreshToken" r' with ⟨w5, evs5⟩
                have h5 := set_token_events w4 "RefreshToken" r'
                rw [hs2] at h5
                simp only [hs1, hs2]
                rcases h6 : send_profile n w5 a' p with ⟨w6, evs6, res6⟩
                simp only [h6]
                have hih := ih w5 a' p
                rw [h6] at hih
                obtain ⟨ha2, hr2⟩ : a2 = a' ∧ r2 = r' := by
                  cases hres; exact ⟨rfl, rfl⟩
                subst ha2 hr2
                rcases h2 with h2 | ⟨m2, h2⟩ <;>
                  rcases h4 with ⟨m4, h4⟩ | ⟨m4, h4⟩ <;>
                  rcases h5 with ⟨m5, h5⟩ | ⟨m5, h5⟩ <;>
                  simp_all [bearerOk, bearerCheck, bearerStep]
              · exact Except.noConfusion hres
            | error e =>
              simp only [hr]
              rcases h3 with ⟨a2, r2, m3, hres, hevs3⟩ | ⟨e2, m3, hres, hevs3⟩
              · exact Except.noConfusion hres
              · simp only at hres hevs3
                rcases h2 with h2 | ⟨m2, h2⟩ <;>
                  simp_all [bearerOk, bearerCheck, bearerStep]
          · rw [if_neg ht]
            rcases h2 with h2 | ⟨m2, h2⟩ <;> simp_all [bearerOk, bearerCheck, bearerStep]
        · rw [if_neg hc]
          simp [bearerOk, bearerCheck, bearerStep]

/-- **C9.** Serialization is a deterministic function of the profile that
preserves top-level key order: every submission POST in any run of
`send_profile` — including the retry after a refresh, hence any two
submissions of the same `DeviceProfile` — carries the byte-identical body
`dumps p`; and `dumps` respects insertion order and multiplicity (swapping two
keys, or deduplicating a repeated key, changes the bytes). -/
theorem serialization_deterministic_and_order_preserving :
    (∀ (fuel : Nat) (w : World) (a : String) (p : Json),
        bodiesOk (send_profile fuel w a p).2.1 (dumps p) = true)
    ∧ ((dumps (Json.obj [("b", Json.num 1), ("a", Json.num 2)])
        == dumps (Json.obj [("a", Json.num 2), ("b", Json.num 1)])) = false)
    ∧ ((dumps (Json.obj [("k", Json.num 1), ("k", Json.num 1)])
        == dumps (Json.obj [("k", Json.num 1)])) = false) := by
  refine ⟨?_, by decide, by decide⟩
  intro fuel
  induction fuel with
  | zero => intro w a p; rfl
  | succ n ih =>
    intro w a p
    rcases w with ⟨⟨sq, rq, lq, kq, iq, keyq⟩, st⟩
    cases sq with
    | nil => simp [send_profile, Env.nextSubmit, bodiesOk, bodyCheck]
    | cons o sq' =>
      cases o with
      | ok => simp [send_profile, Env.nextSubmit, bodiesOk, bodyCheck]
      | transportError m =>
          simp [send_profile, Env.nextSubmit, bodiesOk, bodyCheck]
      | httpError code =>
        simp only [send_profile, Env.nextSubmit]
        by_cases hc : (code == 401) = true
        · rw [if_pos hc]
          rcases hg : get_token_from_credential_manager
              { env := { submitQ := sq', refreshQ := rq, loginQ := lq, keyringQ := kq,
                         inputQ := iq, keyQ := keyq }, store := st } "RefreshToken" with
            ⟨w2, evs2, rt⟩
          have h2 := get_token_events
              { env := { submitQ := sq', refreshQ := rq, loginQ := lq, keyringQ := kq,
                         inputQ := iq, keyQ := keyq }, store := st } "RefreshToken"
          rw [hg] at h2
          simp only [hg]
          by_cases ht : truthy rt = true
          · rw [if_pos ht]
            rcases hr : refresh_access_token w2 (rt.getD "") with ⟨w3, evs3, res3⟩
            have h3 := refresh_events w2 (rt.getD "")
            rw [hr] at h3
            cases res3 with
            | ok pr =>
              rcases pr with ⟨a', r'⟩
              simp only [hr]
              rcases h3 with ⟨a2, r2, m3, hres, hevs3⟩ | ⟨e, m3, hres, hevs3⟩
              · simp only at hres hevs3
                rcases hs1 : set_token_in_credential_manager w3 "AccessToken" a' with ⟨w4, evs4⟩
                have h4 := set_token_events w3 "AccessToken" a'
                rw [hs1] at h4
                rcases hs2 : set_token_in_credential_manager w4 "RefreshToken" r' with ⟨w5, evs5⟩
                have h5 := set_token_events w4 "RefreshToken" r'
                rw [hs2] at h5
                simp only [hs1, hs2]
                rcases h6 : send_profile n w5 a' p with ⟨w6, evs6, res6⟩
                simp only [h6]
                have hih := ih w5 a' p
                rw [h6] at hih
                rcases h2 with h2 | ⟨m2, h2⟩ <;>
                  rcases h4 with ⟨m4, h4⟩ | ⟨m4, h4⟩ <;>
                  rcases h5 with ⟨m5, h5⟩ | ⟨m5, h5⟩ <;>
                  simp_all [bodiesOk, bodyCheck]
              · exact Except.noConfusion hres
            | error e =>
              simp only [hr]
              rcases h3 with ⟨a2, r2, m3, hres, hevs3⟩ | ⟨e2, m3, hres, hevs3⟩
              · exact Except.noConfusion hres
              · simp only at hres hevs3
                rcases h2 with h2 | ⟨m2, h2⟩ <;> simp_all [bodiesOk, bodyCheck]
          · rw [if_neg ht]
            rcases h2 with h2 | ⟨m2, h2⟩ <;> simp_all [bodiesOk, bodyCheck]
        · rw [if_neg hc]
          simp [bodiesOk, bodyCheck]

/-! ## Concrete scenario fixtures -/

/-- A one-entry device profile used as concrete test input. -/
def sampleProfile : Json := Json.obj [("hwid", Json.str "h")]

/-- A world where the collection service rejects every submission with 401
while every refresh exchange succeeds with fresh tokens, and the store holds a
refresh token — the "service that always rejects" scenario. -/
def alwaysRejectWorld : World :=
  { env := { submitQ := [HttpOutcome.httpError 401, HttpOutcome.httpError 401,
               HttpOutcome.httpError 401, HttpOutcome.httpError 401, HttpOutcome.httpError 401]
             refreshQ := [AuthOutcome.ok "A2" "R2", AuthOutcome.ok "A3" "R3",
               AuthOutcome.ok "A4" "R4", AuthOutcome.ok "A5" "R5", AuthOutcome.ok "A6" "R6"]
             loginQ := []
             keyringQ := []
             inputQ := []
             keyQ := [] }
    store := [((CREDENTIAL_SERVICE_NAME ++ "/RefreshToken", "RefreshToken"), "R1")] }

/-- A world for a `--silent --send` run of `main.py` with an empty credential
store: login succeeds once credentials are typed, and the submission then
succeeds. -/
def silentRunWorld : World :=
  { env := { submitQ := [HttpOutcome.ok]
             refreshQ := []
             loginQ := [AuthOutcome.ok "A1" "R1"]
             keyringQ := []
             inputQ := [("operator", "pw")]
             keyQ := [] }
    store := [] }

/-- A world whose credential store holds an access token that is the empty
string, with a login exchange scripted to succeed. -/
def emptyTokenWorld : World :=
  { env := { submitQ := []
             refreshQ := []
             loginQ := [AuthOutcome.ok "A1" "R1"]
             keyringQ := []
             inputQ := [("u", "pw")]
             keyQ := [] }
    store := [((CREDENTIAL_SERVICE_NAME ++ "/AccessToken", "AccessToken"), "")] }

/-- A world whose first submission yields 401 and whose store holds no refresh
token. -/
def noRefreshTokenWorld : World :=
  { env := { submitQ := [HttpOutcome.httpError 401]
             refreshQ := []
             loginQ := []
             keyringQ := []
             inputQ := []
             keyQ := [] }
    store := [((CREDENTIAL_SERVICE_NAME ++ "/AccessToken", "AccessToken"), "A1")] }

/-- **C1 (failing).** Contrary to the claim, a second 401 does trigger a
further refresh and a third submission request: against a service that always
answers 401 (each refresh succeeding), the recursive retry of `send_profile`
issues as many POSTs and refresh calls as the recursion is allowed to unfold —
3 POSTs and 3 refreshes within depth 3, 5 of each within depth 5, with the run
still recursing (`none`) — instead of stopping after two POSTs and one
refresh. -/
theorem send_profile_third_request_on_repeated_401 :
    countSubmits (send_profile 3 alwaysRejectWorld "A1" sampleProfile).2.1 = 3
    ∧ countRefreshReqs (send_profile 3 alwaysRejectWorld "A1" sampleProfile).2.1 = 3
    ∧ countSubmits (send_profile 5 alwaysRejectWorld "A1" sampleProfile).2.1 = 5
    ∧ countRefreshReqs (send_profile 5 alwaysRejectWorld "A1" sampleProfile).2.1 = 5
    ∧ (send_profile 5 alwaysRejectWorld "A1" sampleProfile).2.2 = none :=
  ⟨rfl, rfl, rfl, rfl, rfl⟩

/-- **C2 (failing).** `--silent` does not make the agent fail fast when login
is required: with no cached access token, a `--silent --send` run of `main.py`
still issues an interactive credential prompt and a login network call —
`main_get_access_token` never consults the flag, and no
`InteractiveAuthRequired` path exists in the code (`--silent` only suppresses
the final keypress prompt). -/
theorem silent_run_still_prompts_for_login :
    storeGet silentRunWorld.store (mainCredKey "AccessToken") = none
    ∧ countPrompts (main_run 1 silentRunWorld true true sampleProfile).2 = 1
    ∧ countLoginReqs (main_run 1 silentRunWorld true true sampleProfile).2 = 1 :=
  ⟨rfl, rfl, rfl⟩

/-- **C4 (counterexample).** An access token *is* present in the store (the
empty string), yet `get_access_token` does not return it: Python's
`if not access_token` treats `""` as missing, so the call prompts
interactively, performs a login network call, and returns the freshly obtained
token instead of the stored one. -/
theorem empty_access_token_triggers_login :
    storeGet emptyTokenWorld.store (credKey "AccessToken") = some ""
    ∧ (get_access_token emptyTokenWorld).2.2 = Except.ok "A1"
    ∧ countPrompts (get_access_token emptyTokenWorld).2.1 = 1
    ∧ countLoginReqs (get_access_token emptyTokenWorld).2.1 = 1 :=
  ⟨rfl, rfl, rfl, rfl⟩

/-- **C3.** If the credential store has no refresh token (absent or empty, or
the keyring read fails) when a submission receives a 401, the submission fails
— the error log line the spec names `ReauthenticationRequired` is emitted and
the 401 is re-raised — after exactly one POST and with zero refresh network
calls. -/
theorem no_refresh_token_401_fails_without_refresh_call :
    ∀ (fuel : Nat) (w : World) (a : String) (p : Json) (sq : List HttpOutcome),
      w.env.submitQ = HttpOutcome.httpError 401 :: sq →
      truthy (storeGet w.store (credKey "RefreshToken")) = false →
      (send_profile (fuel + 1) w a p).2.2 = some (Except.error (Exc.httpError 401))
      ∧ countRefreshReqs (send_profile (fuel + 1) w a p).2.1 = 0
      ∧ countSubmits (send_profile (fuel + 1) w a p).2.1 = 1
      ∧ Event.logError "Refresh token not found. Please authenticate again."
          ∈ (send_profile (fuel + 1) w a p).2.1 := by
  intro fuel w a p sq hsq hrt
  rcases w with ⟨⟨sq0, rq, lq, kq, iq, keyq⟩, st⟩
  simp only at hsq
  subst hsq
  simp only [credKey] at hrt
  cases kq with
  | nil =>
    simp [send_profile, Env.nextSubmit, get_token_from_credential_manager,
      keyring_get_password, Env.nextKeyring, hrt,
      countRefreshReqs, countSubmits, isRefreshReq, isSubmitReq, List.filter]
  | cons b kq' =>
    cases b
    · simp [send_profile, Env.nextSubmit, get_token_from_credential_manager,
        keyring_get_password, Env.nextKeyring, hrt,
        countRefreshReqs, countSubmits, isRefreshReq, isSubmitReq, List.filter]
    · simp [send_profile, Env.nextSubmit, get_token_from_credential_manager,
        keyring_get_password, Env.nextKeyring, truthy,
        countRefreshReqs, countSubmits, isRefreshReq, isSubmitReq, List.filter]

/-- Witness for C3 at a concrete world: a 401 with no stored refresh token. -/
theorem no_refresh_token_401_witness :
    noRefreshTokenWorld.env.submitQ = HttpOutcome.httpError 401 :: []
    ∧ truthy (storeGet noRefreshTokenWorld.store (credKey "RefreshToken")) = false
    ∧ ((send_profile 1 noRefreshTokenWorld "A1" sampleProfile).2.2
          = some (Except.error (Exc.httpError 401))
      ∧ countRefreshReqs (send_profile 1 noRefreshTokenWorld "A1" sampleProfile).2.1 = 0
      ∧ countSubmits (send_profile 1 noRefreshTokenWorld "A1" sampleProfile).2.1 = 1
      ∧ Event.logError "Refresh token not found. Please authenticate again."
          ∈ (send_profile 1 noRefreshTokenWorld "A1" sampleProfile).2.1) :=
  ⟨rfl, by decide,
    no_refresh_token_401_fails_without_refresh_call 0 noRefreshTokenWorld "A1" sampleProfile []
      rfl (by decide)⟩

/-- **C7.** A first POST failing with a non-401 HTTP error or a transport
error is surfaced immediately: exactly one submission request is issued, no
refresh network call happens, and the error is re-raised. -/
theorem non_401_failure_single_request_no_retry :
    ∀ (fuel : Nat) (w : World) (a : String) (p : Json) (o : HttpOutcome) (sq : List HttpOutcome),
      w.env.submitQ = o :: sq →
      ((∃ c, o = HttpOutcome.httpError c ∧ c ≠ 401) ∨ (∃ m, o = HttpOutcome.transportError m)) →
      countSubmits (send_profile (fuel + 1) w a p).2.1 = 1
      ∧ countRefreshReqs (send_profile (fuel + 1) w a p).2.1 = 0
      ∧ ∃ e, (send_profile (fuel + 1) w a p).2.2 = some (Except.error e) := by
  intro fuel w a p o sq hsq ho
  rcases w with ⟨⟨sq0, rq, lq, kq, iq, keyq⟩, st⟩
  simp only at hsq
  subst hsq
  rcases ho with ⟨c, rfl, hc⟩ | ⟨m, rfl⟩
  · have hcb : (c == 401) = false := by
      simpa using hc
    simp [send_profile, Env.nextSubmit, hcb,
      countRefreshReqs, countSubmits, isRefreshReq, isSubmitReq, List.filter]
  · simp [send_profile, Env.nextSubmit,
      countRefreshReqs, countSubmits, isRefreshReq, isSubmitReq, List.filter]

/-- A world whose first (and only scripted) submission outcome is a 500. -/
def http500World : World :=
  { env := { submitQ := [HttpOutcome.httpError 500]
             refreshQ := []
             loginQ := []
             keyringQ := []
             inputQ := []
             keyQ := [] }
    store := [] }

/-- Witness for C7 at a concrete world: a 500 on the first POST. -/
theorem non_401_failure_witness :
    http500World.env.submitQ = HttpOutcome.httpError 500 :: []
    ∧ ((∃ c, HttpOutcome.httpError 500 = HttpOutcome.httpError c ∧ c ≠ 401)
        ∨ (∃ m, HttpOutcome.httpError 500 = HttpOutcome.transportError m))
    ∧ (countSubmits (send_profile 1 http500World "A1" sampleProfile).2.1 = 1
      ∧ countRefreshReqs (send_profile 1 http500World "A1" sampleProfile).2.1 = 0
      ∧ ∃ e, (send_profile 1 http500World "A1" sampleProfile).2.2 = some (Except.error e)) :=
  ⟨rfl, Or.inl ⟨500, rfl, by decide⟩,
    non_401_failure_single_request_no_retry 0 http500World "A1" sampleProfile
      (HttpOutcome.httpError 500) [] rfl (Or.inl ⟨500, rfl, by decide⟩)⟩

/-- A world whose first keyring operation succeeds, with arbitrary store and
scripted queues. -/
def okKeyringWorld (st : Store) (sq : List HttpOutcome) (rq lq : List AuthOutcome)
    (kq : List Bool) (iq : List (String × String)) : World :=
  { env := { submitQ := sq
             refreshQ := rq
             loginQ := lq
             keyringQ := false :: kq
             inputQ := iq
             keyQ := [] }
    store := st }

/-- **C4 (amended).** If the credential store lookup succeeds and returns a
*non-empty* access token, `get_access_token` returns exactly that stored token
and performs no network call (no login, no refresh, no submission) and no
interactive prompt.  (The unamended claim fails for a stored empty string —
see the counterexample — since Python's `if not access_token` conflates it
with absence.) -/
theorem cached_nonempty_token_returned_without_network :
    ∀ (st : Store) (t : String) (sq : List HttpOutcome) (rq lq : List AuthOutcome)
      (kq : List Bool) (iq : List (String × String)),
      storeGet st (credKey "AccessToken") = some t → t ≠ "" →
      (get_access_token (okKeyringWorld st sq rq lq kq iq)).2.2 = Except.ok t
      ∧ countLoginReqs (get_access_token (okKeyringWorld st sq rq lq kq iq)).2.1 = 0
      ∧ countRefreshReqs (get_access_token (okKeyringWorld st sq rq lq kq iq)).2.1 = 0
      ∧ countSubmits (get_access_token (okKeyringWorld st sq rq lq kq iq)).2.1 = 0
      ∧ countPrompts (get_access_token (okKeyringWorld st sq rq lq kq iq)).2.1 = 0 := by
  intro st t sq rq lq kq iq h1 h2
  have hb : (t == "") = false := by simpa using h2
  simp only [credKey] at h1
  simp [get_access_token, get_token_from_credential_manager, keyring_get_password,
    Env.nextKeyring, okKeyringWorld, h1, hb,
    countLoginReqs, countRefreshReqs, countSubmits, countPrompts,
    isLoginReq, isRefreshReq, isSubmitReq, isPrompt, List.filter]

/-- A world whose credential store holds the non-empty access token `"A1"`. -/
def cachedTokenWorld : World :=
  okKeyringWorld [((CREDENTIAL_SERVICE_NAME ++ "/AccessToken", "AccessToken"), "A1")] [] [] [] [] []

/-- Witness for the amended C4 at a concrete store holding `"A1"`. -/
theorem cached_token_witness :
    storeGet cachedTokenWorld.store (credKey "AccessToken") = some "A1"
    ∧ "A1" ≠ ""
    ∧ ((get_access_token cachedTokenWorld).2.2 = Except.ok "A1"
      ∧ countLoginReqs (get_access_token cachedTokenWorld).2.1 = 0
      ∧ countRefreshReqs (get_access_token cachedTokenWorld).2.1 = 0
      ∧ countSubmits (get_access_token cachedTokenWorld).2.1 = 0
      ∧ countPrompts (get_access_token cachedTokenWorld).2.1 = 0) :=
  ⟨by decide, by decide,
    cached_nonempty_token_returned_without_network
      [((CREDENTIAL_SERVICE_NAME ++ "/AccessToken", "AccessToken"), "A1")] "A1" [] [] [] [] []
      (by decide) (by decide)⟩

/-- Behaviour of the prompt-and-login path (lines 143–149 of
`auth_handler.py`) when the login exchange succeeds: both returned tokens are
written to the store with their type tags — the keyring writes happening
whatever the backend does, a failure of one write not blocking the other —
and the fresh access token is returned. -/
theorem get_access_token_login_spec (w : World) (lq : List AuthOutcome) (a r u pw : String)
    (iq' : List (String × String))
    (hin : w.env.inputQ = (u, pw) :: iq')
    (hlq : w.env.loginQ = AuthOutcome.ok a r :: lq) :
    (get_access_token_login w).2.2 = Except.ok a
    ∧ Event.kset (CREDENTIAL_SERVICE_NAME ++ "/" ++ "AccessToken") "AccessToken" a
        ∈ (get_access_token_login w).2.1
    ∧ Event.kset (CREDENTIAL_SERVICE_NAME ++ "/" ++ "RefreshToken") "RefreshToken" r
        ∈ (get_access_token_login w).2.1
    ∧ countKsets (get_access_token_login w).2.1 = 2
    ∧ countPrompts (get_access_token_login w).2.1 = 1 := by
  rcases w with ⟨⟨sq, rq, lq0, kq, iq, keyq⟩, st⟩
  simp only at hin hlq
  subst hin hlq
  simp only [get_access_token_login, Env.nextInput, authenticate_user, Env.nextLogin]
  rcases hs1 : set_token_in_credential_manager
      { env := { submitQ := sq, refreshQ := rq, loginQ := lq, keyringQ := kq,
                 inputQ := iq', keyQ := keyq }, store := st } "AccessToken" a with ⟨w4, evs4⟩
  have h4 := set_token_events
      { env := { submitQ := sq, refreshQ := rq, loginQ := lq, keyringQ := kq,
                 inputQ := iq', keyQ := keyq }, store := st } "AccessToken" a
  rw [hs1] at h4
  rcases hs2 : set_token_in_credential_manager w4 "RefreshToken" r with ⟨w5, evs5⟩
  have h5 := set_token_events w4 "RefreshToken" r
  rw [hs2] at h5
  simp only [hs1, hs2]
  rcases h4 with ⟨m4, h4⟩ | ⟨m4, h4⟩ <;> rcases h5 with ⟨m5, h5⟩ | ⟨m5, h5⟩ <;>
    simp_all [countKsets, countPrompts, isKset, isPrompt, List.filter]

/-- A world for the login scenario: empty network queues except a successful
login exchange, credentials on the input queue, and an arbitrary first keyring
outcome `k0` followed by arbitrary further keyring outcomes. -/
def loginScenarioWorld (st : Store) (k0 : Bool) (kq : List Bool) (lq : List AuthOutcome)
    (u pw : String) (iq : List (String × String)) (a r : String) : World :=
  { env := { submitQ := []
             refreshQ := []
             loginQ := AuthOutcome.ok a r :: lq
             keyringQ := k0 :: kq
             inputQ := (u, pw) :: iq
             keyQ := [] }
    store := st }

/-- A world for the refresh scenario: the first submission yields 401, the
refresh exchange succeeds with the given token pair, the refresh-token read
succeeds, and the subsequent keyring writes behave arbitrarily (`kq`). -/
def refreshScenarioWorld (st : Store) (kq : List Bool) (sq : List HttpOutcome)
    (rq : List AuthOutcome) (a r : String) : World :=
  { env := { submitQ := HttpOutcome.httpError 401 :: sq
             refreshQ := AuthOutcome.ok a r :: rq
             loginQ := []
             keyringQ := false :: kq
             inputQ := []
             keyQ := [] }
    store := st }

/-- **C5.** After every successful login exchange and after every successful
refresh exchange, both returned tokens are written to the credential store via
two keyring writes with the correct type tags, independently of whether either
write's backend fails (the keyring outcomes `kq` are arbitrary); and the new
access token is still produced — returned by `get_access_token` after a login,
and carried by the retry POST after a refresh. -/
theorem tokens_persisted_after_login_and_refresh :
    (∀ (st : Store) (k0 : Bool) (kq : List Bool) (lq : List AuthOutcome)
        (u pw : String) (iq : List (String × String)) (a r : String),
        truthy (storeGet st (credKey "AccessToken")) = false →
        (get_access_token (loginScenarioWorld st k0 kq lq u pw iq a r)).2.2 = Except.ok a
        ∧ Event.kset (CREDENTIAL_SERVICE_NAME ++ "/" ++ "AccessToken") "AccessToken" a
            ∈ (get_access_token (loginScenarioWorld st k0 kq lq u pw iq a r)).2.1
        ∧ Event.kset (CREDENTIAL_SERVICE_NAME ++ "/" ++ "RefreshToken") "RefreshToken" r
            ∈ (get_access_token (loginScenarioWorld st k0 kq lq u pw iq a r)).2.1
        ∧ countKsets (get_access_token (loginScenarioWorld st k0 kq lq u pw iq a r)).2.1 = 2)
    ∧ (∀ (st : Store) (kq : List Bool) (sq : List HttpOutcome) (rq : List AuthOutcome)
        (fuel : Nat) (a0 a r : String) (p : Json),
        truthy (storeGet st (credKey "RefreshToken")) = true →
        ∃ l₁ l₂,
          (send_profile (fuel + 2) (refreshScenarioWorld st kq sq rq a r) a0 p).2.1
              = l₁ ++ Event.submitReq a (dumps p) :: l₂
          ∧ Event.kset (CREDENTIAL_SERVICE_NAME ++ "/" ++ "AccessToken") "AccessToken" a ∈ l₁
          ∧ Event.kset (CREDENTIAL_SERVICE_NAME ++ "/" ++ "RefreshToken") "RefreshToken" r ∈ l₁) := by
  constructor
  · intro st k0 kq lq u pw iq a r h
    cases k0
    · rcases hl : get_access_token_login
          { env := { submitQ := [], refreshQ := [], loginQ := AuthOutcome.ok a r :: lq,
                     keyringQ := kq, inputQ := (u, pw) :: iq, keyQ := [] },
            store := st } with ⟨wl, evsl, resl⟩
      have hs := get_access_token_login_spec
          { env := { submitQ := [], refreshQ := [], loginQ := AuthOutcome.ok a r :: lq,
                     keyringQ := kq, inputQ := (u, pw) :: iq, keyQ := [] },
            store := st } lq a r u pw iq rfl rfl
      rw [hl] at hs
      simp only at hs
      have hk : (List.filter isKset evsl).length = 2 := hs.2.2.2.1
      rcases hsg : storeGet st (credKey "AccessToken") with _ | t
      · simp only [credKey] at hsg
        simp only [get_access_token, get_token_from_credential_manager, keyring_get_password,
          Env.nextKeyring, loginScenarioWorld, hsg]
        rw [hl]
        simp [hs.1, hs.2.1, hs.2.2.1, countKsets, isKset, List.filter, List.filter_append, hk]
      · have hs0 : (t == "") = true := by
          rw [hsg] at h
          simpa [truthy] using h
        simp only [credKey] at hsg
        simp only [get_access_token, get_token_from_credential_manager, keyring_get_password,
          Env.nextKeyring, loginScenarioWorld, hsg, hs0, if_true]
        rw [hl]
        simp [hs.1, hs.2.1, hs.2.2.1, countKsets, isKset, List.filter, List.filter_append, hk]
    · rcases hl : get_access_token_login
          { env := { submitQ := [], refreshQ := [], loginQ := AuthOutcome.ok a r :: lq,
                     keyringQ := kq, inputQ := (u, pw) :: iq, keyQ := [] },
            store := st } with ⟨wl, evsl, resl⟩
      have hs := get_access_token_login_spec
          { env := { submitQ := [], refreshQ := [], loginQ := AuthOutcome.ok a r :: lq,
                     keyringQ := kq, inputQ := (u, pw) :: iq, keyQ := [] },
            store := st } lq a r u pw iq rfl rfl
      rw [hl] at hs
      simp only at hs
      have hk : (List.filter isKset evsl).length = 2 := hs.2.2.2.1
      simp only [get_access_token, get_token_from_credential_manager, keyring_get_password,
        Env.nextKeyring, loginScenarioWorld]
      rw [hl]
      simp [hs.1, hs.2.1, hs.2.2.1, countKsets, isKset, List.filter, List.filter_append, hk]
  · intro st kq sq rq fuel a0 a r p h
    simp only [credKey] at h
    rcases hs1 : set_token_in_credential_manager
        { env := { submitQ := sq, refreshQ := rq, loginQ := [], keyringQ := kq,
                   inputQ := [], keyQ := [] }, store := st } "AccessToken" a with ⟨w4, evs4⟩
    have h4 := set_token_events
        { env := { submitQ := sq, refreshQ := rq, loginQ := [], keyringQ := kq,
                   inputQ := [], keyQ := [] }, store := st } "AccessToken" a
    rw [hs1] at h4
    rcases hs2 : set_token_in_credential_manager w4 "RefreshToken" r with ⟨w5, evs5⟩
    have h5 := set_token_events w4 "RefreshToken" r
    rw [hs2] at h5
    rcases send_profile_events_cons fuel w5 a p with ⟨rest, hrest⟩
    rcases h6 : send_profile (fuel + 1) w5 a p with ⟨w6, evs6, res6⟩
    rw [h6] at hrest
    simp only at hrest
    refine ⟨Event.submitReq a0 (dumps p) ::
        Event.logInfo "Access token expired. Refreshing token..." ::
        Event.kget (CREDENTIAL_SERVICE_NAME ++ "/" ++ "RefreshToken") "RefreshToken" ::
        (Event.refreshReq ((storeGet st (CREDENTIAL_SERVICE_NAME ++ "/" ++ "RefreshToken",
            "RefreshToken")).getD "") ::
          Event.refreshOk a r ::
          Event.logSuccess ("Successfully refreshed access token with prospector service at "
            ++ AUTH_REFRESH_API_URL) :: (evs4 ++ evs5)), rest, ?_, ?_, ?_⟩
    · rw [show fuel + 2 = (fuel + 1) + 1 from rfl, send_profile]
      simp only [refreshScenarioWorld, Env.nextSubmit, get_token_from_credential_manager,
        keyring_get_password, Env.nextKeyring, refresh_access_token, Env.nextRefresh]
      simp [h, hs1, hs2, h6, hrest]
    · rcases h4 with ⟨m4, h4⟩ | ⟨m4, h4⟩ <;> simp only at h4 <;> simp [h4]
    · rcases h5 with ⟨m5, h5⟩ | ⟨m5, h5⟩ <;> simp only at h5 <;> simp [h5]

/-- A store pre-seeded with a refresh token only. -/
def seededRefreshStore : Store :=
  [((CREDENTIAL_SERVICE_NAME ++ "/RefreshToken", "RefreshToken"), "R1")]

/-- Witness for C5: a concrete login scenario (empty store) and a concrete
refresh scenario (store seeded with a refresh token). -/
theorem tokens_persisted_witness :
    truthy (storeGet ([] : Store) (credKey "AccessToken")) = false
    ∧ ((get_access_token (loginScenarioWorld [] false [] [] "u" "pw" [] "A1" "R1")).2.2
          = Except.ok "A1"
      ∧ Event.kset (CREDENTIAL_SERVICE_NAME ++ "/" ++ "AccessToken") "AccessToken" "A1"
          ∈ (get_access_token (loginScenarioWorld [] false [] [] "u" "pw" [] "A1" "R1")).2.1
      ∧ Event.kset (CREDENTIAL_SERVICE_NAME ++ "/" ++ "RefreshToken") "RefreshToken" "R1"
          ∈ (get_access_token (loginScenarioWorld [] false [] [] "u" "pw" [] "A1" "R1")).2.1
      ∧ countKsets (get_access_token (loginScenarioWorld [] false [] [] "u" "pw" [] "A1" "R1")).2.1
          = 2)
    ∧ truthy (storeGet seededRefreshStore (credKey "RefreshToken")) = true
    ∧ (∃ l₁ l₂,
        (send_profile (0 + 2) (refreshScenarioWorld seededRefreshStore [] [] [] "A2" "R2")
            "A0" sampleProfile).2.1
          = l₁ ++ Event.submitReq "A2" (dumps sampleProfile) :: l₂
        ∧ Event.kset (CREDENTIAL_SERVICE_NAME ++ "/" ++ "AccessToken") "AccessToken" "A2" ∈ l₁
        ∧ Event.kset (CREDENTIAL_SERVICE_NAME ++ "/" ++ "RefreshToken") "RefreshToken" "R2" ∈ l₁) :=
  ⟨by decide,
    tokens_persisted_after_login_and_refresh.1 [] false [] [] "u" "pw" [] "A1" "R1" (by decide),
    by decide,
    tokens_persisted_after_login_and_refresh.2 seededRefreshStore [] [] [] 0 "A0" "A2" "R2"
      sampleProfile (by decide)⟩

/-- **C6.** Credential-store operations never raise past the store boundary:
whatever the keyring backend does (`b` says whether it raises), `get` returns
the stored value on success and plain absence (`none`) on failure — logging a
warning, leaving the store untouched, raising nothing — and `set` returns
normally in both cases, updating the store exactly when the backend succeeded
and logging the outcome, so the caller proceeds with the in-memory value. -/
theorem store_failures_not_raised :
    (∀ (w : World) (tt : String) (b : Bool) (kq : List Bool),
        w.env.keyringQ = b :: kq →
        ((get_token_from_credential_manager w tt).2.2
            = if b then none else storeGet w.store (credKey tt))
        ∧ (get_token_from_credential_manager w tt).1.store = w.store
        ∧ (b = true → ∃ m, Event.logError m ∈ (get_token_from_credential_manager w tt).2.1))
    ∧ (∀ (w : World) (tt v : String) (b : Bool) (kq : List Bool),
        w.env.keyringQ = b :: kq →
        ((set_token_in_credential_manager w tt v).1.store
            = if b then w.store else storeSet w.store (credKey tt) v)
        ∧ (b = true → ∃ m, Event.logError m ∈ (set_token_in_credential_manager w tt v).2)
        ∧ (b = false → ∃ m, Event.logSuccess m ∈ (set_token_in_credential_manager w tt v).2)) := by
  constructor
  · intro w tt b kq hkq
    rcases w with ⟨⟨sq, rq, lq, kq0, iq, keyq⟩, st⟩
    simp only at hkq
    subst hkq
    cases b <;>
      simp [get_token_from_credential_manager, keyring_get_password, Env.nextKeyring, credKey]
  · intro w tt v b kq hkq
    rcases w with ⟨⟨sq, rq, lq, kq0, iq, keyq⟩, st⟩
    simp only at hkq
    subst hkq
    cases b <;>
      simp [set_token_in_credential_manager, keyring_set_password, Env.nextKeyring, credKey,
        storeSet]

/-- A world whose single scripted keyring operation raises. -/
def failingKeyringWorld : World :=
  { env := { submitQ := []
             refreshQ := []
             loginQ := []
             keyringQ := [true]
             inputQ := []
             keyQ := [] }
    store := [] }

/-- Witness for C6: a raising backend on a `get`, and a working backend on a
`set`. -/
theorem store_failures_not_raised_witness :
    failingKeyringWorld.env.keyringQ = true :: []
    ∧ (((get_token_from_credential_manager failingKeyringWorld "AccessToken").2.2
          = if true then none else storeGet failingKeyringWorld.store (credKey "AccessToken"))
      ∧ (get_token_from_credential_manager failingKeyringWorld "AccessToken").1.store
          = failingKeyringWorld.store
      ∧ (true = true → ∃ m, Event.logError m
          ∈ (get_token_from_credential_manager failingKeyringWorld "AccessToken").2.1))
    ∧ (okKeyringWorld [] [] [] [] [] []).env.keyringQ = false :: []
    ∧ (((set_token_in_credential_manager (okKeyringWorld [] [] [] [] [] []) "AccessToken" "A1").1.store
          = if false then (okKeyringWorld [] [] [] [] [] []).store
            else storeSet (okKeyringWorld [] [] [] [] [] []).store (credKey "AccessToken") "A1")
      ∧ (false = true → ∃ m, Event.logError m
          ∈ (set_token_in_credential_manager (okKeyringWorld [] [] [] [] [] []) "AccessToken" "A1").2)
      ∧ (false = false → ∃ m, Event.logSuccess m
          ∈ (set_token_in_credential_manager (okKeyringWorld [] [] [] [] [] []) "AccessToken" "A1").2)) :=
  ⟨rfl, store_failures_not_raised.1 failingKeyringWorld "AccessToken" true [] rfl, rfl,
    store_failures_not_raised.2 (okKeyringWorld [] [] [] [] [] []) "AccessToken" "A1" false [] rfl⟩

/-- **C10.** The two token types live in disjoint credential-store slots:
distinct token types map to distinct `(service, username)` keys (the service
namespace is the fixed service name plus the token type), a `set` followed by
a `get` of the same token type returns the value just written, and a `set` of
one token type leaves the stored value of any other token type unchanged. -/
theorem token_types_keyed_disjointly :
    (∀ (tt₁ tt₂ : String), tt₁ ≠ tt₂ → credKey tt₁ ≠ credKey tt₂)
    ∧ (∀ (w : World) (tt v : String), w.env.keyringQ = [] →
        (get_token_from_credential_manager (set_token_in_credential_manager w tt v).1 tt).2.2
          = some v)
    ∧ (∀ (w : World) (tt₁ tt₂ v : String), w.env.keyringQ = [] → tt₁ ≠ tt₂ →
        (get_token_from_credential_manager (set_token_in_credential_manager w tt₁ v).1 tt₂).2.2
          = (get_token_from_credential_manager w tt₂).2.2) := by
  refine ⟨?_, ?_, ?_⟩
  · intro tt₁ tt₂ h heq
    exact h (congrArg Prod.snd heq)
  · intro w tt v hkq
    rcases w with ⟨⟨sq, rq, lq, kq0, iq, keyq⟩, st⟩
    simp only at hkq
    subst hkq
    simp [set_token_in_credential_manager, keyring_set_password,
      get_token_from_credential_manager, keyring_get_password, Env.nextKeyring,
      storeSet, storeGet]
  · intro w tt₁ tt₂ v hkq hne
    have hkey : ((CREDENTIAL_SERVICE_NAME ++ "/" ++ tt₁, tt₁) : String × String)
        ≠ (CREDENTIAL_SERVICE_NAME ++ "/" ++ tt₂, tt₂) := by
      intro heq
      exact hne (congrArg Prod.snd heq)
    rcases w with ⟨⟨sq, rq, lq, kq0, iq, keyq⟩, st⟩
    simp only at hkq
    subst hkq
    simp [set_token_in_credential_manager, keyring_set_password,
      get_token_from_credential_manager, keyring_get_password, Env.nextKeyring,
      storeSet, storeGet, hkey]

/-- A world with an empty store and no scripted keyring failure. -/
def plainWorld : World :=
  { env := { submitQ := []
             refreshQ := []
             loginQ := []
             keyringQ := []
             inputQ := []
             keyQ := [] }
    store := [] }

/-- Witness for C10 at the two literal token types. -/
theorem token_types_keyed_disjointly_witness :
    ("AccessToken" ≠ "RefreshToken" ∧ credKey "AccessToken" ≠ credKey "RefreshToken")
    ∧ (plainWorld.env.keyringQ = []
      ∧ (get_token_from_credential_manager
            (set_token_in_credential_manager plainWorld "AccessToken" "A1").1 "AccessToken").2.2
          = some "A1")
    ∧ (get_token_from_credential_manager
          (set_token_in_credential_manager plainWorld "AccessToken" "A1").1 "RefreshToken").2.2
        = (get_token_from_credential_manager plainWorld "RefreshToken").2.2 :=
  ⟨⟨by decide, token_types_keyed_disjointly.1 "AccessToken" "RefreshToken" (by decide)⟩,
    ⟨rfl, token_types_keyed_disjointly.2.1 plainWorld "AccessToken" "A1" rfl⟩,
    token_types_keyed_disjointly.2.2 plainWorld "AccessToken" "RefreshToken" "A1" rfl
      (by decide)⟩

end Prospector
